import Mathlib

/-!
Verification development for the subsocial-node free-calls rate limiter.

The embedding below is a shallow model of two source files:

* src/pallets/free-calls/src/lib.rs — the pallet: per-consumer window
  statistics, the admission check (can_make_free_call / check_window), the
  dispatchable try_free_call, and the FreeCallsPrevalidation signed
  extension (validate).
* src/runtime/src/free_calls.rs — the runtime quota strategy
  (FreeCallsCalculationStrategy::calculate) deriving a quota from a
  locked-stake record.

Machine integers are modelled as Nat with explicit saturation or
truncation where the Rust types make these observable: used_calls and the
quota are u16 (NumberOfCalls), weights are u64, and the runtime balance is
cast to u64 with Rust as-semantics (truncation mod 2 to the 64).

Account identifiers, call identifiers and dispatch errors are opaque to
the limiter; they are modelled as Nat.
-/

namespace FreeCalls

/-- Account identifiers are opaque to the limiter; modelled as Nat. -/
abbrev AccountId := Nat

/-- Inner runtime calls are opaque to the limiter (only the configured
call filter inspects them); modelled as Nat. -/
abbrev CallId := Nat

/-- Dispatch errors of inner calls are opaque payloads; modelled as Nat. -/
abbrev DispatchError := Nat

/-- Largest value of a Rust u64. -/
def U64_MAX : Nat := 18446744073709551615

/-- Largest value of a Rust u16 (NumberOfCalls in the source). -/
def U16_MAX : Nat := 65535

/-- Rust u16 saturating_add on Nat representatives. -/
def u16_saturating_add (a b : Nat) : Nat := min (a + b) U16_MAX

/-- Rust u64 saturating_add on Nat representatives. -/
def u64_saturating_add (a b : Nat) : Nat := min (a + b) U64_MAX

/-- Rust u64 saturating_mul on Nat representatives. -/
def u64_saturating_mul (a b : Nat) : Nat := min (a * b) U64_MAX

/-- ConsumerStats (src/pallets/free-calls/src/lib.rs lines 79-87): the
usage record of one window for one consumer.  timeline_index is a block
number (the bucket index), used_calls a u16 counter. -/
structure ConsumerStats where
  timeline_index : Nat
  used_calls : Nat
deriving DecidableEq, Repr

/-- ConsumerStats::new (lib.rs lines 89-96): a fresh record for the given
bucket with zero used calls. -/
def ConsumerStats.new (window_index : Nat) : ConsumerStats :=
  { timeline_index := window_index, used_calls := 0 }

/-- WindowConfig (lib.rs lines 98-106): period in blocks and the
quota-to-window ratio.  The ratio is a NonZeroU16 in the source; the Nat
field is only ever instantiated with positive values. -/
structure WindowConfig where
  period : Nat
  quota_ratio : Nat
deriving DecidableEq, Repr

/-- Events of the pallet (lib.rs lines 200-209).  The FreeCallResult
payload carries the consumer and the inner dispatch result, with none
standing for Ok and some e for an inner dispatch error e. -/
inductive PalletEvent where
  | freeCallResult (who : AccountId) (result : Option DispatchError)
  | eligibleAccountsAdded (n : Nat)
deriving DecidableEq, Repr

/-- LockedInfo of pallet-locker-mirror as consumed by the runtime strategy
(src/runtime/src/free_calls.rs lines 105-112): when the stake was locked,
how much, and an optional expiry block.  The pallet-locker-mirror source
is not under src; the field set is taken from its destructuring in
free_calls.rs and from the spec (section 3, locked-stake record).
locked_amount is the runtime Balance; the spec describes it as an integer
balance, so it is modelled as an unbounded Nat. -/
structure LockedInfo where
  locked_at : Nat
  locked_amount : Nat
  expires_at : Option Nat
deriving DecidableEq, Repr

/-- The persistent state read and written by the limiter: the current
block number, the LockedInfoByAccount storage map of the locker-mirror
pallet, the WindowStatsByConsumer storage map (a ValueQuery map, so an
absent key reads as the empty list, lib.rs lines 179-187), an abstract
component standing for all storage of other pallets that inner calls may
touch, and the event deposit list. -/
structure PalletState where
  block_number : Nat
  locked_info : AccountId → Option LockedInfo
  window_stats : AccountId → List ConsumerStats
  inner_world : Nat
  events : List PalletEvent

/-- The static environment of the pallet: the WindowsConfig constant, the
CallFilter, the QuotaCalculationStrategy, the dispatcher for inner calls
(returning the new state, the inner dispatch result with none for Ok, and
the extracted actual weight), and the benchmarked weight of try_free_call
itself. -/
structure Env where
  windows_config : List WindowConfig
  call_filter : CallId → Bool
  quota_strategy : AccountId → Nat → Option LockedInfo → Option Nat
  dispatch : CallId → PalletState → PalletState × Option DispatchError × Nat
  self_weight : Nat

/-- Pallet::check_window (lib.rs lines 343-372): decide whether one window
admits one more call and return its updated stats.  Mirrors the source:
reject a zero period, compute the bucket index, reset on a strictly older
stored bucket, compare used_calls against max(1, quota / ratio), and on
admission bump used_calls with a u16 saturating add. -/
def check_window (current_block quota : Nat) (config : WindowConfig)
    (window_stats : Option ConsumerStats) : Option ConsumerStats :=
  if config.period = 0 then none
  else
    let timeline_index := current_block / config.period
    let stats0 :=
      match window_stats with
      | some r => r
      | none => ConsumerStats.new timeline_index
    let stats :=
      if stats0.timeline_index < timeline_index then ConsumerStats.new timeline_index
      else stats0
    if stats.used_calls < max 1 (quota / config.quota_ratio) then
      some { stats with used_calls := u16_saturating_add stats.used_calls 1 }
    else
      none

/-- The for-loop of Pallet::can_make_free_call (lib.rs lines 315-333):
walk the window configs in order, evaluate check_window against the old
stats entry of the same index, and push each new entry into a BoundedVec
whose bound is the configuration length (try_push fails when the bound is
reached, and the whole evaluation then rejects). -/
def check_windows_loop (bound current_block quota : Nat)
    (old_stats : List ConsumerStats) :
    List WindowConfig → Nat → List ConsumerStats → Option (List ConsumerStats)
  | [], _, new_stats => some new_stats
  | config :: rest, config_index, new_stats =>
    match check_window current_block quota config old_stats[config_index]? with
    | none => none
    | some window_stats =>
      if new_stats.length < bound then
        check_windows_loop bound current_block quota old_stats rest
          (config_index + 1) (new_stats ++ [window_stats])
      else none

/-- Pallet::can_make_free_call (lib.rs lines 297-336): the admission
check.  Reads the block number, rejects an empty configuration, asks the
quota strategy (rejecting an absent or zero quota), and runs the window
loop against the stored stats of the consumer. -/
def can_make_free_call (env : Env) (st : PalletState) (consumer : AccountId) :
    Option (List ConsumerStats) :=
  let current_block := st.block_number
  let windows_config := env.windows_config
  if windows_config.isEmpty then none
  else
    match env.quota_strategy consumer current_block (st.locked_info consumer) with
    | some quota =>
      if quota > 0 then
        check_windows_loop windows_config.length current_block quota
          (st.window_stats consumer) windows_config 0 []
      else none
    | none => none

/-- bool_to_option of pallet-utils (not under src; modelled from its one
use at lib.rs line 242, where a true filter verdict must become some and a
false one none). -/
def bool_to_option (b : Bool) : Option Unit :=
  if b then some () else none

/-- The admission expression inside Pallet::try_free_call (lib.rs lines
242-243): the call filter verdict chained with can_make_free_call. -/
def free_call_admission (env : Env) (st : PalletState) (consumer : AccountId)
    (call : CallId) : Option (List ConsumerStats) :=
  (bool_to_option (env.call_filter call)).bind
    (fun _ => can_make_free_call env st consumer)

/-- Pallet::update_consumer_stats (lib.rs lines 374-380): overwrite the
stats entry of one consumer in the WindowStatsByConsumer map. -/
def update_consumer_stats (st : PalletState) (consumer : AccountId)
    (new_stats : List ConsumerStats) : PalletState :=
  { st with window_stats := fun a => if a = consumer then new_stats else st.window_stats a }

/-- The Pays flag of a PostDispatchInfo. -/
inductive Pays where
  | yes
  | no
deriving DecidableEq, Repr

/-- PostDispatchInfo as returned by try_free_call: the actual weight and
whether a fee is paid. -/
structure PostDispatchInfo where
  actual_weight : Option Nat
  pays_fee : Pays
deriving DecidableEq, Repr

/-- Transaction origins, as far as the limiter observes them. -/
inductive Origin where
  | signed (who : AccountId)
  | root
  | unsigned
deriving DecidableEq, Repr

/-- Error code of a failed ensure_signed (BadOrigin), as an opaque
dispatch error payload. -/
def badOrigin : DispatchError := 0

/-- Pallet::try_free_call (lib.rs lines 234-268): ensure a signed origin,
evaluate the filter and the admission check, and if admitted commit the
new stats, dispatch the inner call, accumulate its extracted weight and
deposit a FreeCallResult event with the inner result.  In every outcome
the receipt pays no fee; a rejection returns only the benchmarked
self-weight and leaves the state untouched. -/
def try_free_call (env : Env) (st : PalletState) (origin : Origin)
    (call : CallId) : PalletState × Except DispatchError PostDispatchInfo :=
  match origin with
  | Origin.signed consumer =>
    match free_call_admission env st consumer call with
    | some new_stats =>
      let st1 := update_consumer_stats st consumer new_stats
      let d := env.dispatch call st1
      let actual_weight := u64_saturating_add env.self_weight d.2.2
      let st3 := { d.1 with events := d.1.events ++ [PalletEvent.freeCallResult consumer d.2.1] }
      (st3, Except.ok { actual_weight := some actual_weight, pays_fee := Pays.no })
    | none =>
      (st, Except.ok { actual_weight := some env.self_weight, pays_fee := Pays.no })
  | _ => (st, Except.error badOrigin)

/-- Runtime calls as seen by the signed extension: either a
try_free_call of the free-calls pallet (is_sub_type succeeds and the
boxed inner call is extracted) or any other call. -/
inductive RuntimeCall where
  | try_free_call_of (call : CallId)
  | other (id : Nat)
deriving DecidableEq, Repr

/-- InvalidTransaction::Custom validity errors raised by the
prevalidation extension. -/
inductive PrevalidationError where
  | custom (code : Nat)
deriving DecidableEq, Repr

/-- FreeCallsValidityError::OutOfQuota (lib.rs line 444). -/
def OutOfQuota : Nat := 0

/-- FreeCallsValidityError::CallCannotBeFree (lib.rs line 447). -/
def CallCannotBeFree : Nat := 1

/-- FreeCallsPrevalidation::validate (lib.rs lines 472-486): for a
try_free_call the filter must accept the boxed call (else Custom code 1)
and can_make_free_call must accept the signer (else Custom code 0); any
other call is valid.  The function only reads storage; its storage
effect, threaded explicitly here, is the identity. -/
def validate (env : Env) (st : PalletState) (who : AccountId)
    (rcall : RuntimeCall) : Except PrevalidationError Unit × PalletState :=
  match rcall with
  | RuntimeCall.try_free_call_of boxed_call =>
    if env.call_filter boxed_call then
      if (can_make_free_call env st who).isSome then (Except.ok (), st)
      else (Except.error (PrevalidationError.custom OutOfQuota), st)
    else (Except.error (PrevalidationError.custom CallCannotBeFree), st)
  | RuntimeCall.other _ => (Except.ok (), st)

/-- currency::DOLLARS of the runtime (src/runtime/src/constants.rs lines
4-5): the denomination dividing a balance into tokens. -/
def DOLLARS : Nat := 100000000000

/-- FREE_CALLS_PER_SUB (src/runtime/src/free_calls.rs line 17). -/
def FREE_CALLS_PER_SUB : Nat := 10

/-- get_utilization_percent (free_calls.rs lines 92-103), parametrised by
the WEEKS and MONTHS block counts, which are defined outside src (the
time constants module only defines MINUTES, HOURS and DAYS); the branch
structure is exactly that of the source. -/
def get_utilization_percent (weeks months lock_period : Nat) : Nat :=
  if lock_period < 1 * weeks then 15
  else if lock_period < 1 * months then (min 3 (lock_period / (1 * weeks))) * 5 + 25
  else (min 12 (lock_period / (1 * months))) * 5 + 40

/-- The expiry test of FreeCallsCalculationStrategy::calculate
(free_calls.rs line 118): expires_at is present and current_block is at
or past it. -/
def expired (expires_at : Option Nat) (current_block : Nat) : Bool :=
  match expires_at with
  | some e => decide (current_block ≥ e)
  | none => false

/-- The arithmetic tail of FreeCallsCalculationStrategy::calculate
(free_calls.rs lines 122-133): lock period, utilization percent, token
count and the saturating quota computation.  The runtime Balance type
lives in subsocial-primitives, which is not under src; following the spec
(an integer balance) locked_amount is an unbounded Nat, so the Rust cast
as u64 after the division by DOLLARS is a truncation mod 2 to the 64.
The final try_into().unwrap_or(u16 MAX) clamps at U16_MAX. -/
def free_calls_formula (weeks months current_block : Nat) (li : LockedInfo) : Nat :=
  let lock_period := current_block - li.locked_at
  let utilization_percent := get_utilization_percent weeks months lock_period
  let num_of_tokens := li.locked_amount / DOLLARS % (U64_MAX + 1)
  let num_of_free_calls :=
    u64_saturating_mul (u64_saturating_mul num_of_tokens FREE_CALLS_PER_SUB)
      utilization_percent / 100
  if num_of_free_calls ≤ U16_MAX then num_of_free_calls else U16_MAX

/-- FreeCallsCalculationStrategy::calculate (free_calls.rs lines 87-134):
no quota without a locked-stake record, with a lock not yet active
(locked_at at or past the current block) or with an expired lock;
otherwise the stake-derived quota.  The consumer argument is accepted and
ignored, as in the source. -/
def calculate (weeks months : Nat) (consumer : AccountId) (current_block : Nat)
    (locked_info : Option LockedInfo) : Option Nat :=
  match locked_info with
  | none => none
  | some li =>
    if li.locked_at ≥ current_block then none
    else if expired li.expires_at current_block then none
    else some (free_calls_formula weeks months current_block li)

/-- The stats value check_window actually counts against: the stored
entry, or a fresh entry of the current bucket when the stored one is
absent or belongs to a strictly older bucket. -/
def effective_stats (current_block : Nat) (config : WindowConfig)
    (window_stats : Option ConsumerStats) : ConsumerStats :=
  let timeline_index := current_block / config.period
  let stats0 :=
    match window_stats with
    | some r => r
    | none => ConsumerStats.new timeline_index
  if stats0.timeline_index < timeline_index then ConsumerStats.new timeline_index
  else stats0

/-- The quota formula in the words of the spec (section 4.1): tokens times
FREE_CALLS_PER_UNIT times the utilization percent, divided by 100 and
saturated at 65535, with tokens the locked amount divided by the
denomination. -/
def spec_utilization (weeks months age : Nat) : Nat :=
  if age < weeks then 15
  else if age < months then 25 + 5 * min 3 (age / weeks)
  else 40 + 5 * min 12 (age / months)

/-- Spec section 4.1 quota value, for comparison with the code-derived
free_calls_formula. -/
def spec_quota (weeks months current_block : Nat) (li : LockedInfo) : Nat :=
  min (li.locked_amount / DOLLARS * FREE_CALLS_PER_SUB *
    spec_utilization weeks months (current_block - li.locked_at) / 100) U16_MAX

/-- A concrete two-window environment used by the witness theorems: a
20-block window with ratio 1 and a 10-block window with ratio 3, a filter
admitting only call 0, a constant quota of 5, and an inner dispatcher
that fails with error 9 and weight 7 while leaving the state unchanged. -/
def demo_env : Env :=
  { windows_config := [{ period := 20, quota_ratio := 1 }, { period := 10, quota_ratio := 3 }]
    call_filter := fun c => c == 0
    quota_strategy := fun _ _ _ => some 5
    dispatch := fun _ s => (s, some 9, 7)
    self_weight := 3 }

/-- A concrete state at block 45 with no locked stake and empty stats. -/
def demo_state : PalletState :=
  { block_number := 45
    locked_info := fun _ => none
    window_stats := fun _ => []
    inner_world := 0
    events := [] }

/-- A locked-stake record whose token count is exactly 2 to the 64: the
locked amount is (U64_MAX plus 1) times the denomination, locked from
block 0 with no expiry. -/
def big_lock : LockedInfo :=
  { locked_at := 0
    locked_amount := (U64_MAX + 1) * DOLLARS
    expires_at := none }

/-- A locked-stake record of ten tokens locked from block 0, no expiry. -/
def small_lock : LockedInfo :=
  { locked_at := 0
    locked_amount := 1000000000000
    expires_at := none }

/-- check_window for a nonzero period is the cap comparison and the
saturating increment applied to the effective stats. -/
theorem check_window_eq (t q : Nat) (cfg : WindowConfig) (prior : Option ConsumerStats)
    (h : cfg.period ≠ 0) :
    check_window t q cfg prior =
      (if (effective_stats t cfg prior).used_calls < max 1 (q / cfg.quota_ratio)
       then some ⟨(effective_stats t cfg prior).timeline_index,
                  u16_saturating_add (effective_stats t cfg prior).used_calls 1⟩
       else none) := by
  unfold check_window effective_stats
  rw [if_neg h]

/-- The effective stats of a present entry: reset exactly when its bucket
is strictly older than the current one. -/
theorem effective_stats_some (t : Nat) (cfg : WindowConfig) (s : ConsumerStats) :
    effective_stats t cfg (some s) =
      if s.timeline_index < t / cfg.period then ConsumerStats.new (t / cfg.period) else s := rfl

/-- The effective stats of an absent entry: a fresh record of the current
bucket. -/
theorem effective_stats_none (t : Nat) (cfg : WindowConfig) :
    effective_stats t cfg none = ConsumerStats.new (t / cfg.period) := by
  unfold effective_stats
  exact if_neg (lt_irrefl _)

/-- A successful check_window forces a nonzero period, a count below the
cap, and the incremented effective stats as output. -/
theorem check_window_some (t q : Nat) (cfg : WindowConfig) (prior : Option ConsumerStats)
    (out : ConsumerStats) (h : check_window t q cfg prior = some out) :
    cfg.period ≠ 0 ∧
    (effective_stats t cfg prior).used_calls < max 1 (q / cfg.quota_ratio) ∧
    out = ⟨(effective_stats t cfg prior).timeline_index,
           u16_saturating_add (effective_stats t cfg prior).used_calls 1⟩ := by
  by_cases hp : cfg.period = 0
  · rw [check_window, if_pos hp] at h
    exact absurd h (by simp)
  · rw [check_window_eq t q cfg prior hp] at h
    by_cases hlt : (effective_stats t cfg prior).used_calls < max 1 (q / cfg.quota_ratio)
    · rw [if_pos hlt] at h
      exact ⟨hp, hlt, (Option.some.inj h).symm⟩
    · rw [if_neg hlt] at h
      exact absurd h (by simp)

/-- C3: for every window with a positive period, positive quota, time and
prior entry (present or absent), check_window admits exactly when the
effective count of the current bucket (the stored used_calls when the
stored timeline_index is at least the current bucket, else zero) is
strictly below max 1 (quota / ratio); on admission the returned stats
carry the effective count bumped by a u16 saturating add of one; and a
fresh or rolled-over bucket always admits, so a positive quota yields at
least one call per bucket even when the ratio exceeds the quota. -/
theorem C3_check_window_cap (t q : Nat) (cfg : WindowConfig) (prior : Option ConsumerStats)
    (hp : 0 < cfg.period) (hq : 0 < q) :
    ((check_window t q cfg prior).isSome = true ↔
      (effective_stats t cfg prior).used_calls < max 1 (q / cfg.quota_ratio)) ∧
    (∀ out, check_window t q cfg prior = some out →
      out.used_calls = u16_saturating_add (effective_stats t cfg prior).used_calls 1) ∧
    ((∀ s, prior = some s → s.timeline_index < t / cfg.period) →
      (check_window t q cfg prior).isSome = true) := by
  have hp0 : cfg.period ≠ 0 := Nat.pos_iff_ne_zero.mp hp
  have heq := check_window_eq t q cfg prior hp0
  refine ⟨?_, ?_, ?_⟩
  · rw [heq]
    by_cases hlt : (effective_stats t cfg prior).used_calls < max 1 (q / cfg.quota_ratio)
    · simp [hlt]
    · simp [hlt]
  · intro out hout
    exact congrArg ConsumerStats.used_calls (check_window_some t q cfg prior out hout).2.2
  · intro hfresh
    have hzero : (effective_stats t cfg prior).used_calls = 0 := by
      cases prior with
      | none =>
        rw [effective_stats_none]
        rfl
      | some s =>
        rw [effective_stats_some, if_pos (hfresh s rfl)]
        rfl
    rw [heq, hzero, if_pos (Nat.lt_of_lt_of_le Nat.zero_lt_one (le_max_left 1 _))]
    rfl

/-- C4: for a positive period, a stored entry of a strictly older bucket
is reset to the current bucket before counting, so the call is admitted
and the resulting entry is the current bucket with one used call; a
stored entry whose bucket is at least the current one (including the
corrupt greater case) is kept as the same bucket and only its counter is
compared and bumped. -/
theorem C4_bucket_rollover (t q : Nat) (cfg : WindowConfig) (s : ConsumerStats)
    (hp : 0 < cfg.period) :
    (s.timeline_index < t / cfg.period →
      check_window t q cfg (some s) =
        some { timeline_index := t / cfg.period, used_calls := 1 }) ∧
    (t / cfg.period ≤ s.timeline_index →
      check_window t q cfg (some s) =
        (if s.used_calls < max 1 (q / cfg.quota_ratio)
         then some { timeline_index := s.timeline_index,
                      used_calls := u16_saturating_add s.used_calls 1 }
         else none)) := by
  have hp0 : cfg.period ≠ 0 := Nat.pos_iff_ne_zero.mp hp
  have heq := check_window_eq t q cfg (some s) hp0
  constructor
  · intro hroll
    rw [heq, effective_stats_some, if_pos hroll]
    have h01 : (ConsumerStats.new (t / cfg.period)).used_calls < max 1 (q / cfg.quota_ratio) :=
      Nat.lt_of_lt_of_le Nat.zero_lt_one (le_max_left 1 _)
    rw [if_pos h01]
    rfl
  · intro hsame
    rw [heq, effective_stats_some, if_neg (Nat.not_lt.mpr hsame)]

/-- A window configuration with a zero period anywhere in the remaining
list makes the window loop reject, whatever the accumulator and index. -/
theorem check_windows_loop_period_zero (bound t q : Nat) (old : List ConsumerStats) :
    ∀ (configs : List WindowConfig) (i : Nat) (acc : List ConsumerStats),
      (∃ cfg, cfg ∈ configs ∧ cfg.period = 0) →
      check_windows_loop bound t q old configs i acc = none := by
  intro configs
  induction configs with
  | nil =>
    rintro i acc ⟨cfg, hmem, _⟩
    exact absurd hmem (List.not_mem_nil cfg)
  | cons c rest ih =>
    rintro i acc ⟨cfg, hmem, hzero⟩
    rcases List.mem_cons.mp hmem with hc | hrest
    · have hnone : check_window t q c old[i]? = none := by
        rw [check_window, if_pos (hc ▸ hzero)]
      simp only [check_windows_loop, hnone]
    · cases hcw : check_window t q c old[i]? with
      | none => simp only [check_windows_loop, hcw]
      | some ws =>
        simp only [check_windows_loop, hcw]
        by_cases hb : acc.length < bound
        · rw [if_pos hb]
          exact ih (i + 1) (acc ++ [ws]) ⟨cfg, hrest, hzero⟩
        · rw [if_neg hb]

/-- Soundness of the window loop: a successful run extends the
accumulator by one admitted entry per remaining configuration, each the
check_window output for the old stats entry of the matching index. -/
theorem check_windows_loop_sound (bound t q : Nat) (old : List ConsumerStats) :
    ∀ (configs : List WindowConfig) (i : Nat) (acc ns : List ConsumerStats),
      check_windows_loop bound t q old configs i acc = some ns →
      ns.length = acc.length + configs.length ∧
      (∀ k, k < acc.length → ns[k]? = acc[k]?) ∧
      (∀ j, j < configs.length → ∃ cfg out, configs[j]? = some cfg ∧
        check_window t q cfg old[i + j]? = some out ∧ ns[acc.length + j]? = some out) := by
  intro configs
  induction configs with
  | nil =>
    intro i acc ns h
    simp only [check_windows_loop] at h
    obtain rfl : acc = ns := Option.some.inj h
    exact ⟨by simp, fun k _ => rfl, fun j hj => absurd hj (Nat.not_lt_zero j)⟩
  | cons c rest ih =>
    intro i acc ns h
    cases hcw : check_window t q c old[i]? with
    | none =>
      simp only [check_windows_loop, hcw] at h
      exact Option.noConfusion h
    | some ws =>
      simp only [check_windows_loop, hcw] at h
      by_cases hb : acc.length < bound
      · rw [if_pos hb] at h
        obtain ⟨hlen, hpre, hwin⟩ := ih (i + 1) (acc ++ [ws]) ns h
        refine ⟨?_, ?_, ?_⟩
        · rw [hlen]
          simp
          omega
        · intro k hk
          have hk' : k < (acc ++ [ws]).length := by
            simp
            omega
          rw [hpre k hk']
          exact List.getElem?_append_left hk
        · intro j hj
          cases j with
          | zero =>
            refine ⟨c, ws, List.getElem?_cons_zero, hcw, ?_⟩
            rw [Nat.add_zero]
            have hk' : acc.length < (acc ++ [ws]).length := by simp
            rw [hpre acc.length hk']
            exact List.getElem?_concat_length acc ws
          | succ j' =>
            have hj' : j' < rest.length := by
              simp at hj
              omega
            obtain ⟨cfg, out, h1, h2, h3⟩ := hwin j' hj'
            refine ⟨cfg, out, ?_, ?_, ?_⟩
            · rw [List.getElem?_cons_succ]
              exact h1
            · have hidx : i + (j' + 1) = i + 1 + j' := by omega
              rw [hidx]
              exact h2
            · have hidx : acc.length + (j' + 1) = (acc ++ [ws]).length + j' := by
                simp
                omega
              rw [hidx]
              exact h3
      · rw [if_neg hb] at h
        cases h

/-- A successful admission check yields a nonempty configuration, a
positive quota from the strategy, and one check_window success per
configured window, collected in order. -/
theorem can_make_free_call_some (env : Env) (st : PalletState) (consumer : AccountId)
    (ns : List ConsumerStats) (h : can_make_free_call env st consumer = some ns) :
    env.windows_config ≠ [] ∧
    ∃ q, env.quota_strategy consumer st.block_number (st.locked_info consumer) = some q ∧
      0 < q ∧
      ns.length = env.windows_config.length ∧
      ∀ j, j < env.windows_config.length → ∃ cfg out,
        env.windows_config[j]? = some cfg ∧
        check_window st.block_number q cfg (st.window_stats consumer)[j]? = some out ∧
        ns[j]? = some out := by
  by_cases hemp : env.windows_config.isEmpty
  · rw [can_make_free_call, if_pos hemp] at h
    cases h
  · rw [can_make_free_call, if_neg hemp] at h
    cases hq : env.quota_strategy consumer st.block_number (st.locked_info consumer) with
    | none =>
      rw [hq] at h
      dsimp only at h
      exact Option.noConfusion h
    | some q =>
      rw [hq] at h
      dsimp only at h
      by_cases hpos : q > 0
      · rw [if_pos hpos] at h
        obtain ⟨hlen, _, hwin⟩ := check_windows_loop_sound env.windows_config.length
          st.block_number q (st.window_stats consumer) env.windows_config 0 [] ns h
        refine ⟨fun hnil => hemp (by rw [hnil]; rfl), q, rfl, hpos, by simpa using hlen, ?_⟩
        intro j hj
        obtain ⟨cfg, out, h1, h2, h3⟩ := hwin j hj
        refine ⟨cfg, out, h1, ?_, ?_⟩
        · rw [show (0 : Nat) + j = j by omega] at h2
          exact h2
        · rw [show List.length ([] : List ConsumerStats) + j = j by simp] at h3
          exact h3
      · rw [if_neg hpos] at h
        exact Option.noConfusion h

/-- C5: admission rejects whenever the quota strategy yields no quota or
a zero quota, whenever the window configuration is empty, and whenever
some configured window has period zero; the latter two rejections depend
only on the configuration, hence hold for every caller and state. -/
theorem C5_config_and_quota_rejection (env : Env) (st : PalletState) (consumer : AccountId) :
    ((env.quota_strategy consumer st.block_number (st.locked_info consumer) = none ∨
      env.quota_strategy consumer st.block_number (st.locked_info consumer) = some 0) →
      can_make_free_call env st consumer = none) ∧
    (env.windows_config = [] → can_make_free_call env st consumer = none) ∧
    ((∃ cfg, cfg ∈ env.windows_config ∧ cfg.period = 0) →
      can_make_free_call env st consumer = none) := by
  refine ⟨?_, ?_, ?_⟩
  · intro hq
    by_cases hemp : env.windows_config.isEmpty
    · rw [can_make_free_call, if_pos hemp]
    · rw [can_make_free_call, if_neg hemp]
      rcases hq with hq | hq
      · rw [hq]
      · rw [hq]
        rfl
  · intro hnil
    rw [can_make_free_call, if_pos (by rw [hnil]; rfl)]
  · intro hzero
    by_cases hemp : env.windows_config.isEmpty
    · rw [can_make_free_call, if_pos hemp]
    · rw [can_make_free_call, if_neg hemp]
      cases hq : env.quota_strategy consumer st.block_number (st.locked_info consumer) with
      | none => rfl
      | some q =>
        dsimp only
        by_cases hpos : q > 0
        · rw [if_pos hpos]
          exact check_windows_loop_period_zero env.windows_config.length st.block_number q
            (st.window_stats consumer) env.windows_config 0 [] hzero
        · rw [if_neg hpos]

/-- The admission expression of try_free_call is the filter verdict
guarding can_make_free_call. -/
theorem free_call_admission_eq (env : Env) (st : PalletState) (consumer : AccountId)
    (call : CallId) :
    free_call_admission env st consumer call =
      if env.call_filter call then can_make_free_call env st consumer else none := by
  unfold free_call_admission bool_to_option
  cases env.call_filter call <;> rfl

/-- try_free_call on a rejected admission returns the state unchanged and
a no-fee receipt accounting only the benchmarked self-weight. -/
theorem try_free_call_reject (env : Env) (st : PalletState) (consumer : AccountId)
    (call : CallId) (h : free_call_admission env st consumer call = none) :
    try_free_call env st (Origin.signed consumer) call =
      (st, Except.ok { actual_weight := some env.self_weight, pays_fee := Pays.no }) := by
  simp only [try_free_call, h]

/-- try_free_call on an accepted admission commits the new stats, then
dispatches against the committed state, appends the result event and
returns an ok no-fee receipt with the accumulated weight. -/
theorem try_free_call_accept (env : Env) (st : PalletState) (consumer : AccountId)
    (call : CallId) (ns : List ConsumerStats)
    (h : free_call_admission env st consumer call = some ns) :
    try_free_call env st (Origin.signed consumer) call =
      ({ (env.dispatch call (update_consumer_stats st consumer ns)).1 with
          events := (env.dispatch call (update_consumer_stats st consumer ns)).1.events ++
            [PalletEvent.freeCallResult consumer
              (env.dispatch call (update_consumer_stats st consumer ns)).2.1] },
       Except.ok { actual_weight := some (u64_saturating_add env.self_weight
                                      (env.dispatch call (update_consumer_stats st consumer ns)).2.2),
                   pays_fee := Pays.no }) := by
  simp only [try_free_call, h]

/-- When the inner dispatcher leaves the stats map alone, the stats map
after an accepted try_free_call holds exactly the admitted new stats for
the consumer. -/
theorem try_free_call_commit (env : Env) (st : PalletState) (consumer : AccountId)
    (call : CallId) (ns : List ConsumerStats)
    (hadm : free_call_admission env st consumer call = some ns)
    (hpres : ∀ s, (env.dispatch call s).1.window_stats = s.window_stats) :
    (try_free_call env st (Origin.signed consumer) call).1.window_stats consumer = ns := by
  rw [try_free_call_accept env st consumer call ns hadm]
  show (env.dispatch call (update_consumer_stats st consumer ns)).1.window_stats consumer = ns
  rw [hpres]
  simp [update_consumer_stats]

/-- C1: for every caller, boxed call and persistent state, the
prevalidation verdict is acceptance exactly when the admission expression
of try_free_call (the filter verdict guarding can_make_free_call) is
acceptance; a refused filter maps to the Custom CallCannotBeFree error
and a failed admission to the Custom OutOfQuota error; and the storage
effect of computing the verdict is the identity on the state. -/
theorem C1_prevalidation_agrees_with_admission (env : Env) (st : PalletState)
    (who : AccountId) (boxed_call : CallId) :
    ((validate env st who (RuntimeCall.try_free_call_of boxed_call)).1 = Except.ok () ↔
      (free_call_admission env st who boxed_call).isSome = true) ∧
    (env.call_filter boxed_call = false →
      (validate env st who (RuntimeCall.try_free_call_of boxed_call)).1 =
        Except.error (PrevalidationError.custom CallCannotBeFree)) ∧
    (env.call_filter boxed_call = true → can_make_free_call env st who = none →
      (validate env st who (RuntimeCall.try_free_call_of boxed_call)).1 =
        Except.error (PrevalidationError.custom OutOfQuota)) ∧
    (validate env st who (RuntimeCall.try_free_call_of boxed_call)).2 = st := by
  cases hf : env.call_filter boxed_call with
  | false =>
    refine ⟨?_, fun _ => ?_, fun htrue => absurd htrue (by simp), ?_⟩
    · rw [free_call_admission_eq, hf]
      simp [validate, hf]
    · simp [validate, hf]
    · simp [validate, hf]
  | true =>
    cases hcm : can_make_free_call env st who with
    | none =>
      refine ⟨?_, fun hfalse => absurd hfalse (by simp), fun _ _ => ?_, ?_⟩
      · rw [free_call_admission_eq, hf]
        simp [validate, hf, hcm]
      · simp [validate, hf, hcm]
      · simp [validate, hf, hcm]
    | some ns =>
      refine ⟨?_, fun hfalse => absurd hfalse (by simp),
        fun _ hnone => absurd hnone (by simp), ?_⟩
      · rw [free_call_admission_eq, hf]
        simp [validate, hf, hcm]
      · simp [validate, hf, hcm]

/-- C2: a rejected admission leaves the whole stats map untouched by
try_free_call; an accepted and committed admission stores a sequence of
exactly the configuration length in which every window counter equals the
pre-existing effective count of the current bucket (zero after a
rollover or for an absent entry) plus one.  The quota bound hypothesis
reflects the u16 NumberOfCalls type of the strategy result, and the
dispatcher hypothesis says inner calls do not touch the stats map. -/
theorem C2_atomic_commit (env : Env) (st : PalletState) (consumer : AccountId)
    (call : CallId)
    (hq16 : ∀ q, env.quota_strategy consumer st.block_number (st.locked_info consumer) =
      some q → q ≤ U16_MAX)
    (hpres : ∀ s, (env.dispatch call s).1.window_stats = s.window_stats) :
    (free_call_admission env st consumer call = none →
      (try_free_call env st (Origin.signed consumer) call).1.window_stats =
        st.window_stats) ∧
    (∀ ns, free_call_admission env st consumer call = some ns →
      ((try_free_call env st (Origin.signed consumer) call).1.window_stats consumer).length =
        env.windows_config.length ∧
      (∀ (j : Nat) (cfg : WindowConfig), env.windows_config[j]? = some cfg →
        ∃ out : ConsumerStats,
          ((try_free_call env st (Origin.signed consumer) call).1.window_stats consumer)[j]? =
            some out ∧
          out.used_calls =
            (effective_stats st.block_number cfg ((st.window_stats consumer)[j]?)).used_calls
              + 1)) := by
  constructor
  · intro hadm
    rw [try_free_call_reject env st consumer call hadm]
  · intro ns hadm
    have hcm : can_make_free_call env st consumer = some ns := by
      rw [free_call_admission_eq] at hadm
      cases hf : env.call_filter call with
      | false =>
        rw [hf] at hadm
        exact absurd hadm (by simp)
      | true =>
        rw [hf] at hadm
        exact hadm
    obtain ⟨-, q, hq, hpos, hlen, hwin⟩ :=
      can_make_free_call_some env st consumer ns hcm
    have hstats := try_free_call_commit env st consumer call ns hadm hpres
    rw [hstats]
    refine ⟨hlen, ?_⟩
    intro j cfg hcfg
    have hj : j < env.windows_config.length := by
      by_contra hge
      rw [List.getElem?_eq_none (Nat.le_of_not_lt hge)] at hcfg
      exact Option.noConfusion hcfg
    obtain ⟨cfg', out, hcfg', hcw, hns⟩ := hwin j hj
    have hcfg_eq : cfg' = cfg := Option.some.inj (hcfg'.symm.trans hcfg)
    subst hcfg_eq
    refine ⟨out, hns, ?_⟩
    obtain ⟨-, hlt, hout⟩ :=
      check_window_some st.block_number q cfg' ((st.window_stats consumer)[j]?) out hcw
    rw [hout]
    show u16_saturating_add
      (effective_stats st.block_number cfg' ((st.window_stats consumer)[j]?)).used_calls 1 = _
    have hq' : q ≤ U16_MAX := hq16 q hq
    have hcap : max 1 (q / cfg'.quota_ratio) ≤ U16_MAX := by
      refine Nat.max_le.mpr ⟨by norm_num [U16_MAX], le_trans (Nat.div_le_self q _) hq'⟩
    unfold u16_saturating_add
    exact Nat.min_eq_left (by omega)

/-- C8: with a signed caller, a refused filter or a failed admission
makes try_free_call return the state completely unchanged (no dispatch,
no event, no storage write) together with an ok receipt that pays no fee
and accounts only the benchmarked self-weight; and in every outcome with
a signed caller the receipt is ok and pays no fee. -/
theorem C8_rejection_is_silent_and_free (env : Env) (st : PalletState)
    (consumer : AccountId) (call : CallId) :
    ((env.call_filter call = false ∨ can_make_free_call env st consumer = none) →
      try_free_call env st (Origin.signed consumer) call =
        (st, Except.ok { actual_weight := some env.self_weight, pays_fee := Pays.no })) ∧
    (∀ st' r, try_free_call env st (Origin.signed consumer) call = (st', r) →
      ∃ pdi, r = Except.ok pdi ∧ pdi.pays_fee = Pays.no) := by
  constructor
  · intro hrej
    have hadm : free_call_admission env st consumer call = none := by
      rw [free_call_admission_eq]
      rcases hrej with hf | hcm
      · rw [hf]
        rfl
      · cases env.call_filter call
        · rfl
        · rw [if_pos rfl]
          exact hcm
    exact try_free_call_reject env st consumer call hadm
  · intro st' r h
    cases hadm : free_call_admission env st consumer call with
    | none =>
      rw [try_free_call_reject env st consumer call hadm] at h
      refine ⟨{ actual_weight := some env.self_weight, pays_fee := Pays.no }, ?_, rfl⟩
      exact ((Prod.mk.injEq _ _ _ _).mp h).2.symm
    | some ns =>
      rw [try_free_call_accept env st consumer call ns hadm] at h
      refine ⟨{ actual_weight := some (u64_saturating_add env.self_weight
                                    (env.dispatch call (update_consumer_stats st consumer ns)).2.2),
                pays_fee := Pays.no }, ?_, rfl⟩
      exact ((Prod.mk.injEq _ _ _ _).mp h).2.symm

/-- C9: on an accepted admission the new stats are committed first and
the inner call is dispatched against the committed state; the final
state is the dispatch output plus one FreeCallResult event carrying the
inner dispatch result (an inner error is surfaced there, not propagated:
the return value is ok), and the committed counters are kept whatever
the inner result, provided inner calls do not touch the stats map. -/
theorem C9_inner_failure_keeps_quota (env : Env) (st : PalletState)
    (consumer : AccountId) (call : CallId) (ns : List ConsumerStats)
    (hadm : free_call_admission env st consumer call = some ns)
    (hpres : ∀ s, (env.dispatch call s).1.window_stats = s.window_stats) :
    (try_free_call env st (Origin.signed consumer) call).1 =
      { (env.dispatch call (update_consumer_stats st consumer ns)).1 with
        events := (env.dispatch call (update_consumer_stats st consumer ns)).1.events ++
          [PalletEvent.freeCallResult consumer
            (env.dispatch call (update_consumer_stats st consumer ns)).2.1] } ∧
    (try_free_call env st (Origin.signed consumer) call).1.window_stats consumer = ns ∧
    (try_free_call env st (Origin.signed consumer) call).2 =
      Except.ok { actual_weight := some (u64_saturating_add env.self_weight
                                     (env.dispatch call (update_consumer_stats st consumer ns)).2.2),
                  pays_fee := Pays.no } := by
  refine ⟨?_, try_free_call_commit env st consumer call ns hadm hpres, ?_⟩
  · rw [try_free_call_accept env st consumer call ns hadm]
  · rw [try_free_call_accept env st consumer call ns hadm]

/-- The branch structure of the utilization percent in the source equals
the piecewise description in the spec. -/
theorem get_utilization_eq_spec (weeks months a : Nat) :
    get_utilization_percent weeks months a = spec_utilization weeks months a := by
  unfold get_utilization_percent spec_utilization
  rw [show 1 * weeks = weeks by ring, show 1 * months = months by ring]
  split_ifs <;> ring

/-- The utilization percent is always at least 15. -/
theorem spec_utilization_ge_15 (weeks months a : Nat) :
    15 ≤ spec_utilization weeks months a := by
  unfold spec_utilization
  split_ifs
  · exact le_refl 15
  · exact le_trans (by norm_num) (Nat.le_add_right 25 _)
  · exact le_trans (by norm_num) (Nat.le_add_right 40 _)

/-- The saturating u64 chain of the source quota computation agrees with
the untruncated spec product clamped at the u16 maximum, as long as the
token count itself fits in a u64 and the utilization is positive. -/
theorem sat_quota_eq (tokens u : Nat) (htok : tokens ≤ U64_MAX) (hu : 1 ≤ u) :
    (if u64_saturating_mul (u64_saturating_mul tokens FREE_CALLS_PER_SUB) u / 100 ≤ U16_MAX
     then u64_saturating_mul (u64_saturating_mul tokens FREE_CALLS_PER_SUB) u / 100
     else U16_MAX) =
    min (tokens * FREE_CALLS_PER_SUB * u / 100) U16_MAX := by
  rw [← Nat.min_def]
  have hbig : U16_MAX ≤ U64_MAX / 100 := by norm_num [U64_MAX, U16_MAX]
  have hdiv_big : ∀ x : Nat, U64_MAX < x → U16_MAX ≤ x / 100 := by
    intro x hx
    calc U16_MAX ≤ (U64_MAX + 1) / 100 := by norm_num [U64_MAX, U16_MAX]
    _ ≤ x / 100 := Nat.div_le_div_right hx
  rcases le_or_lt (tokens * FREE_CALLS_PER_SUB) U64_MAX with h1 | h1
  · rw [show u64_saturating_mul tokens FREE_CALLS_PER_SUB = tokens * FREE_CALLS_PER_SUB from
      Nat.min_eq_left h1]
    rcases le_or_lt (tokens * FREE_CALLS_PER_SUB * u) U64_MAX with h2 | h2
    · rw [show u64_saturating_mul (tokens * FREE_CALLS_PER_SUB) u =
        tokens * FREE_CALLS_PER_SUB * u from Nat.min_eq_left h2]
    · rw [show u64_saturating_mul (tokens * FREE_CALLS_PER_SUB) u = U64_MAX from
        Nat.min_eq_right (Nat.le_of_lt h2)]
      rw [Nat.min_eq_right hbig, Nat.min_eq_right (hdiv_big _ h2)]
  · rw [show u64_saturating_mul tokens FREE_CALLS_PER_SUB = U64_MAX from
      Nat.min_eq_right (Nat.le_of_lt h1)]
    have hUu : u64_saturating_mul U64_MAX u = U64_MAX :=
      Nat.min_eq_right (Nat.le_mul_of_pos_right U64_MAX hu)
    rw [hUu]
    rw [Nat.min_eq_right hbig]
    have h2 : U64_MAX < tokens * FREE_CALLS_PER_SUB * u :=
      Nat.lt_of_lt_of_le h1 (Nat.le_mul_of_pos_right _ hu)
    rw [Nat.min_eq_right (hdiv_big _ h2)]

/-- For a token count that fits in a u64, the source quota formula equals
the spec quota formula. -/
theorem free_calls_formula_eq_spec (weeks months t : Nat) (li : LockedInfo)
    (htok : li.locked_amount / DOLLARS ≤ U64_MAX) :
    free_calls_formula weeks months t li = spec_quota weeks months t li := by
  simp only [free_calls_formula, spec_quota]
  rw [Nat.mod_eq_of_lt (by omega : li.locked_amount / DOLLARS < U64_MAX + 1)]
  rw [get_utilization_eq_spec]
  exact sat_quota_eq (li.locked_amount / DOLLARS)
    (spec_utilization weeks months (t - li.locked_at)) htok
    (le_trans (by norm_num) (spec_utilization_ge_15 weeks months (t - li.locked_at)))

/-- C6: for every choice of the week and month constants and every
caller, the strategy returns no quota exactly when there is no
locked-stake record, or the lock is not yet active (locked_at at or past
the current block), or an expiry is present and already reached; at the
expiry block itself the result is none, and one block before an expiry
strictly later than the lock start plus one the quota is derived
normally (the result is some). -/
theorem C6_quota_none_iff (weeks months : Nat) (c : AccountId) :
    (∀ (t : Nat) (li_opt : Option LockedInfo),
      (calculate weeks months c t li_opt = none ↔
        li_opt = none ∨ ∃ li, li_opt = some li ∧
          (t ≤ li.locked_at ∨ ∃ e, li.expires_at = some e ∧ e ≤ t))) ∧
    (∀ (li : LockedInfo) (e : Nat), li.expires_at = some e →
      calculate weeks months c e (some li) = none) ∧
    (∀ (li : LockedInfo) (e : Nat), li.expires_at = some e → li.locked_at + 1 < e →
      (calculate weeks months c (e - 1) (some li)).isSome = true) := by
  refine ⟨?_, ?_, ?_⟩
  · intro t li_opt
    cases li_opt with
    | none => simp [calculate]
    | some li =>
      constructor
      · intro h
        by_cases h1 : li.locked_at ≥ t
        · exact Or.inr ⟨li, rfl, Or.inl h1⟩
        · by_cases h2 : expired li.expires_at t = true
          · cases hex : li.expires_at with
            | none =>
              rw [hex] at h2
              simp only [expired] at h2
              exact Bool.noConfusion h2
            | some e =>
              have he : e ≤ t := by
                rw [hex] at h2
                simp only [expired] at h2
                exact of_decide_eq_true h2
              exact Or.inr ⟨li, rfl, Or.inr ⟨e, hex, he⟩⟩
          · simp only [calculate] at h
            rw [if_neg h1, if_neg h2] at h
            exact absurd h (by simp)
      · intro h
        rcases h with h | ⟨li', hli', hcase⟩
        · exact Option.noConfusion h
        · obtain rfl : li = li' := Option.some.inj hli'
          rcases hcase with h1 | ⟨e, hex, he⟩
          · simp only [calculate]
            rw [if_pos h1]
          · simp only [calculate]
            by_cases h1 : li.locked_at ≥ t
            · rw [if_pos h1]
            · have h2 : expired li.expires_at t = true := by
                rw [hex]
                simp only [expired]
                exact decide_eq_true he
              rw [if_neg h1, if_pos h2]
  · intro li e hex
    simp only [calculate]
    by_cases h1 : li.locked_at ≥ e
    · rw [if_pos h1]
    · have h2 : expired li.expires_at e = true := by
        rw [hex]
        simp only [expired]
        exact decide_eq_true (le_refl e)
      rw [if_neg h1, if_pos h2]
  · intro li e hex hlt
    simp only [calculate]
    have h1 : ¬ li.locked_at ≥ e - 1 := by omega
    have h2 : ¬ expired li.expires_at (e - 1) = true := by
      rw [hex]
      simp [expired]
      omega
    rw [if_neg h1, if_neg h2]
    rfl

/-- C7 counterexample: for a locked amount of (2 to the 64) times the
denomination, the token count truncates to zero through the u64 cast, so
the code derives a quota of zero while the spec formula saturates at
65535; so the claim that the derived quota always equals the spec formula
for every locked amount, however large, is false at this input. -/
theorem C7_counterexample_truncating_cast :
    calculate 100800 432000 0 1 (some big_lock) = some 0 ∧
    spec_quota 100800 432000 1 big_lock = U16_MAX ∧
    calculate 100800 432000 0 1 (some big_lock) ≠
      some (spec_quota 100800 432000 1 big_lock) := by
  refine ⟨?_, ?_, ?_⟩ <;> decide

/-- C7 as amended: for an active, unexpired lock whose token count (the
locked amount divided by the denomination) fits in a u64, the derived
quota equals the spec formula: the token count times FREE_CALLS_PER_SUB
times the utilization percent of the lock age, divided by 100 and
saturated at 65535; beyond that bound the u64 cast truncates the token
count mod 2 to the 64. -/
theorem C7_amended_quota_formula (weeks months : Nat) (c : AccountId) (t : Nat)
    (li : LockedInfo) (hactive : li.locked_at < t)
    (hexp : ∀ e, li.expires_at = some e → t < e)
    (htok : li.locked_amount / DOLLARS ≤ U64_MAX) :
    calculate weeks months c t (some li) = some (spec_quota weeks months t li) := by
  simp only [calculate]
  rw [if_neg (by omega : ¬ li.locked_at ≥ t)]
  have h2 : ¬ expired li.expires_at t = true := by
    cases hex : li.expires_at with
    | none => simp [expired]
    | some e =>
      have := hexp e hex
      simp [expired]
      omega
  rw [if_neg h2]
  rw [free_calls_formula_eq_spec weeks months t li htok]

/-- C10: the stake-derived quota strategy ignores the consumer argument:
any two accounts receive equal quotas for the same time and locked-stake
record. -/
theorem C10_strategy_ignores_consumer (weeks months : Nat) (c1 c2 : AccountId)
    (t : Nat) (li : Option LockedInfo) :
    calculate weeks months c1 t li = calculate weeks months c2 t li := rfl

/-- Witness for C1 at a concrete input: call 5 is refused by the demo
filter, so prevalidation answers Custom CallCannotBeFree. -/
theorem C1_witness :
    (validate demo_env demo_state 0 (RuntimeCall.try_free_call_of 5)).1 =
      Except.error (PrevalidationError.custom CallCannotBeFree) :=
  (C1_prevalidation_agrees_with_admission demo_env demo_state 0 5).2.1 (by decide)

/-- Witness for C2 at a concrete input: the accepted demo admission
commits a stats sequence of the configuration length. -/
theorem C2_witness :
    ((try_free_call demo_env demo_state (Origin.signed 0) 0).1.window_stats 0).length =
      demo_env.windows_config.length :=
  ((C2_atomic_commit demo_env demo_state 0 0
      (fun q h => by
        have hq : q = 5 := by
          have h5 : demo_env.quota_strategy 0 demo_state.block_number
              (demo_state.locked_info 0) = some 5 := rfl
          exact (Option.some.inj (h5.symm.trans h)).symm
        rw [hq]
        decide)
      (fun s => rfl)).2
    [{ timeline_index := 2, used_calls := 1 }, { timeline_index := 4, used_calls := 1 }]
    (by decide)).1

/-- Witness for C3 at a concrete input: a fresh 20-block window with
quota 5 admits. -/
theorem C3_witness :
    (check_window 45 5 { period := 20, quota_ratio := 1 } none).isSome = true :=
  (C3_check_window_cap 45 5 { period := 20, quota_ratio := 1 } none (by decide)
    (by decide)).2.2 (fun s h => Option.noConfusion h)

/-- Witness for C4 at a concrete input: a stored entry of bucket 1 at
block 45 of a 20-block window rolls over to bucket 2 with one used
call. -/
theorem C4_witness :
    check_window 45 5 { period := 20, quota_ratio := 1 }
      (some { timeline_index := 1, used_calls := 7 }) =
      some { timeline_index := 2, used_calls := 1 } :=
  (C4_bucket_rollover 45 5 { period := 20, quota_ratio := 1 }
    { timeline_index := 1, used_calls := 7 } (by decide)).1 (by decide)

/-- Witness for C5 at a concrete input: an emptied configuration rejects
the demo caller. -/
theorem C5_witness :
    can_make_free_call { demo_env with windows_config := [] } demo_state 0 = none :=
  (C5_config_and_quota_rejection { demo_env with windows_config := [] }
    demo_state 0).2.1 rfl

/-- Witness for C6 at a concrete input: a lock expiring at block 500
yields no quota at block 500. -/
theorem C6_witness :
    calculate 100800 432000 0 500
      (some { locked_at := 0, locked_amount := 0, expires_at := some 500 }) = none :=
  (C6_quota_none_iff 100800 432000 0).2.1
    { locked_at := 0, locked_amount := 0, expires_at := some 500 } 500 rfl

/-- Witness for the amended C7 at a concrete input: ten tokens locked for
one day at six-second blocks yield a quota of the spec formula. -/
theorem C7_witness :
    calculate 100800 432000 0 14400 (some small_lock) =
      some (spec_quota 100800 432000 14400 small_lock) :=
  C7_amended_quota_formula 100800 432000 0 14400 small_lock (by decide)
    (fun e h => Option.noConfusion h) (by decide)

/-- Witness for C8 at a concrete input: the filtered-out call 5 leaves
the demo state unchanged and pays no fee. -/
theorem C8_witness :
    try_free_call demo_env demo_state (Origin.signed 0) 5 =
      (demo_state, Except.ok { actual_weight := some demo_env.self_weight,
                               pays_fee := Pays.no }) :=
  (C8_rejection_is_silent_and_free demo_env demo_state 0 5).1 (Or.inl (by decide))

/-- Witness for C9 at a concrete input: the admitted demo call returns an
ok no-fee receipt even though the demo dispatcher fails with error 9. -/
theorem C9_witness :
    (try_free_call demo_env demo_state (Origin.signed 0) 0).2 =
      Except.ok { actual_weight := some (u64_saturating_add demo_env.self_weight
                                     (demo_env.dispatch 0 (update_consumer_stats demo_state 0
                                       [{ timeline_index := 2, used_calls := 1 },
                                        { timeline_index := 4, used_calls := 1 }])).2.2),
                  pays_fee := Pays.no } :=
  (C9_inner_failure_keeps_quota demo_env demo_state 0 0
      [{ timeline_index := 2, used_calls := 1 }, { timeline_index := 4, used_calls := 1 }]
      (by decide) (fun s => rfl)).2.2

end FreeCalls
